import Mathlib

/-!
# Verification of the claude-context-monitor core

A shallow embedding of the core of `src/scripts/context-monitor.py`
(class `ContextMonitor`): transcript usage extraction
(`parse_transcript`), the threshold trigger and dispatch logic of
`check_and_notify`, the output-file update (`update_output_file`) and
configuration loading (`_load_config`).

Modelling conventions:
* A transcript file is `Option (List Line)`: `none` models a file that
  does not exist or cannot be read (both are caught and turned into
  `None` by the Python code); a `Line` is either a JSON-decodable entry
  or a line on which `json.loads` raises `JSONDecodeError`.
* Timestamps are natural numbers; Python's truthiness test
  `entry.get('timestamp')` on a numeric timestamp is "present and
  nonzero".
* Python float arithmetic is modelled by exact rational arithmetic
  (`ℚ`); the quantities compared by the program are exactly
  representable at the inputs of interest, and the specification demands
  exactness up to ±1e-9.
* File-system side effects are modelled by an explicit state
  (`FSState`) carrying the marker file, the structured content of the
  output file, the number of notifications sent, and a ghost trace of
  side effects in the order the program performs them.
-/

namespace ContextMonitor

/-- The `usage` object of one transcript entry. Each field is the
corresponding JSON key; `none` models an absent key (the code defaults
each to `0` via `usage.get(key, 0)`, lines 124-126). -/
structure Usage where
  input_tokens : Option Nat
  cache_read_input_tokens : Option Nat
  cache_creation_input_tokens : Option Nat
deriving DecidableEq

/-- The empty JSON object `{}`, the default of `.get('usage', {})` on
line 121. -/
def emptyUsage : Usage := ⟨none, none, none⟩

/-- One decoded transcript entry.  `message_usage` is
`entry['message']['usage']`; `none` models a missing `message`, a
missing `usage` key, or JSON `null` (all make
`entry.get('message', {}).get('usage')` return `None`).  The booleans
default to `False` when the key is absent, exactly as
`entry.get('isSidechain', False)` does, so they are plain `Bool`s. -/
structure Entry where
  message_usage : Option Usage
  isSidechain : Bool
  isApiErrorMessage : Bool
  timestamp : Option Nat
deriving DecidableEq

/-- One physical line of the transcript file: either an entry that
`json.loads` decodes, or a line on which it raises. -/
inductive Line where
  | malformed
  | ok (e : Entry)
deriving DecidableEq

/-- Lines 98-104: decode each line, skipping (`continue`) the lines on
which `json.loads` raises `JSONDecodeError`. -/
def decodeLines : List Line → List Entry
  | [] => []
  | Line.malformed :: rest => decodeLines rest
  | Line.ok e :: rest => e :: decodeLines rest

/-- The validity predicate of lines 107-113: non-null usage, not a
sidechain entry, not an API error message, truthy timestamp. -/
def Entry.isValid (e : Entry) : Bool :=
  e.message_usage.isSome && !e.isSidechain && !e.isApiErrorMessage &&
    (match e.timestamp with
     | none => false
     | some t => t != 0)

/-- `valid_entries` of lines 107-113. -/
def validEntries (lines : List Line) : List Entry :=
  (decodeLines lines).filter Entry.isValid

/-- The sort key `lambda x: x.get('timestamp', 0)` of line 120. -/
def tsKey (e : Entry) : Nat := e.timestamp.getD 0

/-- Python's `max(xs, key=...)` as a fold: the running maximum is
replaced only when a strictly greater key appears, so the first maximal
element wins. -/
def pickLatest : Entry → List Entry → Entry
  | best, [] => best
  | best, e :: rest => pickLatest (if tsKey best < tsKey e then e else best) rest

/-- Line 115-120: `None` when there is no valid entry, otherwise
`max(valid_entries, key=lambda x: x.get('timestamp', 0))`. -/
def selectEntry (lines : List Line) : Option Entry :=
  match validEntries lines with
  | [] => none
  | e :: rest => some (pickLatest e rest)

/-- The dictionary returned by `parse_transcript`, lines 134-140. -/
structure Snapshot where
  total_tokens : Nat
  percentage : ℚ
  input_tokens : Nat
  cache_read_tokens : Nat
  cache_creation_tokens : Nat
deriving DecidableEq

/-- `ContextMonitor.parse_transcript`, lines 89-144.  `transcript = none`
models the file not existing (line 93-95) or any read error (the
enclosing `except` of lines 142-144); both return `None`.
`max_context_tokens = 0` would make line 130 raise `ZeroDivisionError`,
caught by the same `except`, hence the explicit guard. -/
def parse_transcript (max_context_tokens : Nat)
    (transcript : Option (List Line)) : Option Snapshot :=
  match transcript with
  | none => none
  | some lines =>
    match selectEntry lines with
    | none => none
    | some latest =>
      let usage := latest.message_usage.getD emptyUsage
      let input_tokens := usage.input_tokens.getD 0
      let cache_read_tokens := usage.cache_read_input_tokens.getD 0
      let cache_creation_tokens := usage.cache_creation_input_tokens.getD 0
      let total_tokens := input_tokens + cache_read_tokens + cache_creation_tokens
      if max_context_tokens = 0 then none
      else some {
        total_tokens := total_tokens
        percentage := ((total_tokens : ℚ) / (max_context_tokens : ℚ)) * 100
        input_tokens := input_tokens
        cache_read_tokens := cache_read_tokens
        cache_creation_tokens := cache_creation_tokens }

/-! ## Configuration (DEFAULT_CONFIG, lines 21-29, and `_load_config`,
lines 41-72) -/

/-- The configuration dictionary with its seven recognized keys.
`threshold` is the fraction of `max_context_tokens` at which the alert
fires; float values are modelled as exact rationals. -/
structure Config where
  threshold : ℚ
  output_file : String
  instructions : String
  notification_enabled : Bool
  max_context_tokens : Nat
  log_enabled : Bool
  log_file : String
deriving DecidableEq

/-- `DEFAULT_CONFIG`, lines 21-29 (`0.80 = 4/5`). -/
def DEFAULT_CONFIG : Config :=
  { threshold := 4/5
    output_file := "claude.md"
    instructions := "Update with current progress, successes, failures, and handoff notes for the next session"
    notification_enabled := true
    max_context_tokens := 200000
    log_enabled := true
    log_file := "~/.claude/context-monitor.log" }

/-- A user `config.json`: every recognized key optional (`none` = the
key is not in the file). -/
structure UserConfig where
  threshold : Option ℚ
  output_file : Option String
  instructions : Option String
  notification_enabled : Option Bool
  max_context_tokens : Option Nat
  log_enabled : Option Bool
  log_file : Option String
deriving DecidableEq

/-- A user config file with no keys, `{}`. -/
def emptyUserConfig : UserConfig := ⟨none, none, none, none, none, none, none⟩

/-- Python's `config.update(user_config)` on line 66: keys present in
the user file override, absent keys keep their current (default)
value. -/
def Config.update (c : Config) (u : UserConfig) : Config :=
  { threshold := u.threshold.getD c.threshold
    output_file := u.output_file.getD c.output_file
    instructions := u.instructions.getD c.instructions
    notification_enabled := u.notification_enabled.getD c.notification_enabled
    max_context_tokens := u.max_context_tokens.getD c.max_context_tokens
    log_enabled := u.log_enabled.getD c.log_enabled
    log_file := u.log_file.getD c.log_file }

/-- The `search_paths` list built on lines 46-59: the explicit override
(when given), then the current directory's `config.json`, the file next
to the installation, and the user-home file, in that order. -/
def search_paths (config_path : Option String)
    (cwd_config script_config home_config : String) : List String :=
  (match config_path with
   | some p => [p]
   | none => []) ++ [cwd_config, script_config, home_config]

/-- What the file system holds at one candidate path: no file,
a file `json.load` raises on, or a file that parses to `u`. -/
inductive ConfigFile where
  | absent
  | malformed
  | valid (u : UserConfig)
deriving DecidableEq

/-- What constructing `ContextMonitor` yields as far as configuration
loading decides it: a configuration, or the `AttributeError` that
escapes `__init__`. -/
inductive LoadResult where
  | ok (c : Config)
  | attributeError
deriving DecidableEq

/-- The loop of lines 61-72 over the file states at the candidate
paths, in search order.  A path that does not exist is passed over
(line 62).  The first path that exists raises: `_load_config` runs
inside `__init__` BEFORE `self.config` is assigned (line 37), and both
arms of the loop body call `self._log`, whose first statement
dereferences `self.config` (line 76) and so raises `AttributeError`.
On a valid file, `json.load` and `config.update` succeed (lines 65-66)
but the `self._log` of line 67 raises; the `except` of line 69 catches
it and the handler's own `self._log` (line 70) raises again, uncaught.
On a malformed file, `json.load` raises and the handler's `self._log`
(line 70) raises the same way.  Either way the `AttributeError`
propagates out of `__init__`.  Only when no candidate exists does the
loop body never run, and the defaults are returned. -/
def load_config : List ConfigFile → LoadResult
  | [] => LoadResult.ok DEFAULT_CONFIG
  | ConfigFile.absent :: rest => load_config rest
  | ConfigFile.malformed :: _ => LoadResult.attributeError
  | ConfigFile.valid _ :: _ => LoadResult.attributeError

/-- What `main` (lines 269-284) does with configuration loading: the
`AttributeError` escaping `ContextMonitor()` is caught by the `except`
of lines 282-284, which prints "Fatal error" and exits 1; when loading
returns, the run continues past construction (`none`). -/
def init_exit_code (files : List ConfigFile) : Option Nat :=
  match load_config files with
  | LoadResult.ok _ => none
  | LoadResult.attributeError => some 1

/-! ## File-system state, `update_output_file` (lines 146-207) and the
trigger logic of `check_and_notify` (lines 209-266) -/

/-- One write to the session's output file.  The code writes strings
(the header of line 195, the `update_section` of lines 160-189); the
model keeps them structured, as a header block or an alert block
carrying the session id and the snapshot it was formatted from. -/
inductive Chunk where
  | header
  | alert (session_id : String) (u : Snapshot)
deriving DecidableEq

/-- A ghost event, recorded in the order the program performs its
side effects. -/
inductive Event where
  | outputCreate
  | outputAppend
  | markerWrite
  | notifySend
deriving DecidableEq

/-- The file-system state of one session directory (`cwd`):
whether `.claude/.context-threshold-hit` exists, the output file's
content (`none` = the file does not exist), how many notifications have
been sent, and the ghost trace. -/
structure FSState where
  markerExists : Bool
  outputFile : Option (List Chunk)
  notificationsSent : Nat
  history : List Event
deriving DecidableEq

/-- Whether file writes succeed.  `write_ok = false` models the
`except` branch of lines 205-207: the write raises, nothing is written,
`update_output_file` returns `False`. -/
structure IOEnv where
  write_ok : Bool
deriving DecidableEq

/-- `ContextMonitor.update_output_file`, lines 146-207: create the file
with a header when it does not exist (lines 193-196), then append the
alert block (lines 199-200); returns `True` on success, `False` when
the write raises (lines 205-207). -/
def update_output_file (env : IOEnv) (session_id : String) (u : Snapshot)
    (s : FSState) : FSState × Bool :=
  if env.write_ok then
    match s.outputFile with
    | none =>
      ({ s with
          outputFile := some [Chunk.header, Chunk.alert session_id u]
          history := s.history ++ [Event.outputCreate, Event.outputAppend] }, true)
    | some content =>
      ({ s with
          outputFile := some (content ++ [Chunk.alert session_id u])
          history := s.history ++ [Event.outputAppend] }, true)
  else (s, false)

/-- The result of one trigger evaluation (spec §4.2): `Fire` when the
threshold branch ran and the firing completed (marker created). -/
inductive TriggerResult where
  | Fire
  | Skip
deriving DecidableEq

/-- Lines 222-261 of `check_and_notify`, the ThresholdTrigger plus
ActionDispatcher of spec §4.2-4.3: skip when the marker exists
(lines 223-226); otherwise test `percentage / 100 >= threshold`
(lines 235-236); on crossing, update the output file (line 240), and
only if that succeeded create the marker (lines 242-243) and, when a
notifier was constructed (`notification_enabled`, line 39), send the
notification (lines 246-253). -/
def evaluate (cfg : Config) (env : IOEnv) (session_id : String)
    (u : Snapshot) (s : FSState) : FSState × TriggerResult :=
  if s.markerExists then (s, TriggerResult.Skip)
  else if u.percentage / 100 ≥ cfg.threshold then
    match update_output_file env session_id u s with
    | (s1, true) =>
      let s2 := { s1 with
                    markerExists := true
                    history := s1.history ++ [Event.markerWrite] }
      let s3 :=
        if cfg.notification_enabled then
          { s2 with
              notificationsSent := s2.notificationsSent + 1
              history := s2.history ++ [Event.notifySend] }
        else s2
      (s3, TriggerResult.Fire)
    | (s1, false) => (s1, TriggerResult.Skip)
  else (s, TriggerResult.Skip)

/-- The hook input read from stdin (spec §6): `transcript_path = none`
models a missing `transcript_path` key; `some t` a path whose file
content is `t` (with `t = none` when the file is missing or
unreadable). -/
structure HookInput where
  session_id : String
  transcript_path : Option (Option (List Line))

/-- `ContextMonitor.check_and_notify`, lines 209-266, on the state of
one session directory: exit 0 when no transcript path was given
(lines 218-220), when the marker already exists (lines 223-226), when
the transcript yields no snapshot (lines 229-232), and after the
threshold branch (line 262).  The guard-and-dispatch block of
lines 234-261 is `evaluate`; its leading marker test re-checks
line 224's condition, already known false on this path. -/
def check_and_notify (cfg : Config) (env : IOEnv) (input : HookInput)
    (s : FSState) : FSState × Nat :=
  match input.transcript_path with
  | none => (s, 0)
  | some transcript =>
    if s.markerExists then (s, 0)
    else
      match parse_transcript cfg.max_context_tokens transcript with
      | none => (s, 0)
      | some u => ((evaluate cfg env input.session_id u s).1, 0)

/-! ## Concrete test data -/

/-- A valid entry with an empty usage object and the given timestamp. -/
def entryWithTs (t : Nat) : Entry :=
  { message_usage := some emptyUsage
    isSidechain := false
    isApiErrorMessage := false
    timestamp := some t }

/-- A sidechain entry with the largest timestamp of the examples. -/
def sidechainEntry : Entry := { entryWithTs 100 with isSidechain := true }

/-- An API-error entry with the largest timestamp of the examples. -/
def apiErrorEntry : Entry := { entryWithTs 100 with isApiErrorMessage := true }

/-- The end-to-end entry of spec §8: 150000 input tokens, 10000
cache-read tokens, no cache-creation key. -/
def entry160k : Entry :=
  { message_usage := some ⟨some 150000, some 10000, none⟩
    isSidechain := false
    isApiErrorMessage := false
    timestamp := some 7 }

/-- The snapshot `parse_transcript 200000` computes from `entry160k`. -/
def snap160k : Snapshot :=
  { total_tokens := 160000
    percentage := 80
    input_tokens := 150000
    cache_read_tokens := 10000
    cache_creation_tokens := 0 }

/-- A snapshot whose only relevant field is its percentage. -/
def pctSnapshot (p : ℚ) : Snapshot :=
  { total_tokens := 0
    percentage := p
    input_tokens := 0
    cache_read_tokens := 0
    cache_creation_tokens := 0 }

/-- An environment in which file writes succeed. -/
def envOk : IOEnv := ⟨true⟩

/-- An environment in which the output-file write raises. -/
def envFail : IOEnv := ⟨false⟩

/-- A fresh session directory: no marker, no output file, nothing sent. -/
def st0 : FSState :=
  { markerExists := false
    outputFile := none
    notificationsSent := 0
    history := [] }

/-! ## Helper lemmas on the extractor -/

theorem decodeLines_append (l1 l2 : List Line) :
    decodeLines (l1 ++ l2) = decodeLines l1 ++ decodeLines l2 := by
  induction l1 with
  | nil => rfl
  | cons a rest ih =>
    cases a with
    | malformed => simpa [decodeLines] using ih
    | ok e => simp [decodeLines, ih]

theorem pickLatest_mem (best : Entry) (l : List Entry) :
    pickLatest best l = best ∨ pickLatest best l ∈ l := by
  induction l generalizing best with
  | nil => exact Or.inl rfl
  | cons e rest ih =>
    by_cases h : tsKey best < tsKey e
    · simp only [pickLatest, if_pos h]
      rcases ih e with h' | h'
      · exact Or.inr (by simp [h'])
      · exact Or.inr (List.mem_cons_of_mem _ h')
    · simp only [pickLatest, if_neg h]
      rcases ih best with h' | h'
      · exact Or.inl h'
      · exact Or.inr (List.mem_cons_of_mem _ h')

theorem pickLatest_ge (best : Entry) (l : List Entry) :
    tsKey best ≤ tsKey (pickLatest best l) ∧
      ∀ e ∈ l, tsKey e ≤ tsKey (pickLatest best l) := by
  induction l generalizing best with
  | nil => exact ⟨le_refl _, by simp⟩
  | cons e rest ih =>
    by_cases h : tsKey best < tsKey e
    · simp only [pickLatest, if_pos h]
      obtain ⟨h1, h2⟩ := ih e
      refine ⟨le_of_lt (lt_of_lt_of_le h h1), ?_⟩
      intro x hx
      rcases List.mem_cons.mp hx with rfl | hx
      · exact h1
      · exact h2 x hx
    · simp only [pickLatest, if_neg h]
      obtain ⟨h1, h2⟩ := ih best
      refine ⟨h1, ?_⟩
      intro x hx
      rcases List.mem_cons.mp hx with rfl | hx
      · exact le_trans (le_of_not_lt h) h1
      · exact h2 x hx

theorem selectEntry_spec (lines : List Line) (e : Entry)
    (h : selectEntry lines = some e) :
    e ∈ validEntries lines ∧ ∀ e' ∈ validEntries lines, tsKey e' ≤ tsKey e := by
  unfold selectEntry at h
  cases hv : validEntries lines with
  | nil => rw [hv] at h; cases h
  | cons a rest =>
    rw [hv] at h
    injection h with h
    subst h
    constructor
    · rcases pickLatest_mem a rest with h' | h'
      · rw [h']; exact List.mem_cons_self a rest
      · exact List.mem_cons_of_mem _ h'
    · intro e' he'
      rcases List.mem_cons.mp he' with rfl | he'
      · exact (pickLatest_ge e' rest).1
      · exact (pickLatest_ge a rest).2 e' he'

/-- Unfolding equation of `parse_transcript` on a transcript with a
selected entry and a nonzero context window. -/
theorem parse_transcript_some (m : Nat) (lines : List Line) (e : Entry)
    (hsel : selectEntry lines = some e) (hm : m ≠ 0) :
    parse_transcript m (some lines) =
      some { total_tokens :=
              ((e.message_usage.getD emptyUsage).input_tokens).getD 0 +
                ((e.message_usage.getD emptyUsage).cache_read_input_tokens).getD 0 +
                ((e.message_usage.getD emptyUsage).cache_creation_input_tokens).getD 0
             percentage :=
              (((((e.message_usage.getD emptyUsage).input_tokens).getD 0 +
                  ((e.message_usage.getD emptyUsage).cache_read_input_tokens).getD 0 +
                  ((e.message_usage.getD emptyUsage).cache_creation_input_tokens).getD 0 : Nat) : ℚ) /
                (m : ℚ)) * 100
             input_tokens := ((e.message_usage.getD emptyUsage).input_tokens).getD 0
             cache_read_tokens := ((e.message_usage.getD emptyUsage).cache_read_input_tokens).getD 0
             cache_creation_tokens :=
              ((e.message_usage.getD emptyUsage).cache_creation_input_tokens).getD 0 } := by
  simp only [parse_transcript]
  rw [hsel]
  simp [hm]

/-! ## Claims about the extractor -/

/-- C3: the extractor selects the entry with the maximum timestamp among
valid entries; an entry with `isSidechain` or `isApiErrorMessage` true is
never selected even when its timestamp is the maximum of all entries;
for valid entries with timestamps [5, 20, 10] the timestamp-20 entry is
selected. -/
theorem C3_latest_valid_entry_selected :
    (∀ (lines : List Line) (e : Entry), selectEntry lines = some e →
        e.isValid = true ∧ e ∈ validEntries lines ∧
          ∀ e' ∈ validEntries lines, tsKey e' ≤ tsKey e) ∧
    selectEntry
        [Line.ok (entryWithTs 5), Line.ok (entryWithTs 20), Line.ok (entryWithTs 10)] =
      some (entryWithTs 20) ∧
    selectEntry [Line.ok (entryWithTs 5), Line.ok sidechainEntry] =
      some (entryWithTs 5) ∧
    selectEntry [Line.ok (entryWithTs 5), Line.ok apiErrorEntry] =
      some (entryWithTs 5) := by
  refine ⟨?_, by decide, by decide, by decide⟩
  intro lines e h
  obtain ⟨hmem, hmax⟩ := selectEntry_spec lines e h
  exact ⟨(List.mem_filter.mp hmem).2, hmem, hmax⟩

/-- C2: for every snapshot the extractor produces, `total_tokens` is
exactly the sum of the three token fields of the selected entry's usage
object, each missing field defaulting to 0, and `percentage` is exactly
`100 * total_tokens / max_context_tokens`. -/
theorem C2_snapshot_token_arithmetic :
    ∀ (max_context_tokens : Nat) (lines : List Line) (s : Snapshot),
      parse_transcript max_context_tokens (some lines) = some s →
      ∃ e, selectEntry lines = some e ∧
        s.input_tokens = ((e.message_usage.getD emptyUsage).input_tokens).getD 0 ∧
        s.cache_read_tokens =
          ((e.message_usage.getD emptyUsage).cache_read_input_tokens).getD 0 ∧
        s.cache_creation_tokens =
          ((e.message_usage.getD emptyUsage).cache_creation_input_tokens).getD 0 ∧
        s.total_tokens = s.input_tokens + s.cache_read_tokens + s.cache_creation_tokens ∧
        s.percentage = 100 * (s.total_tokens : ℚ) / (max_context_tokens : ℚ) := by
  intro m lines s h
  cases hsel : selectEntry lines with
  | none =>
    rw [show parse_transcript m (some lines) = none from by
      simp only [parse_transcript]; rw [hsel]] at h
    cases h
  | some e =>
    by_cases hm : m = 0
    · rw [show parse_transcript m (some lines) = none from by
        simp only [parse_transcript]; rw [hsel]; simp [hm]] at h
      cases h
    · rw [parse_transcript_some m lines e hsel hm] at h
      injection h with h
      subst h
      refine ⟨e, rfl, rfl, rfl, rfl, rfl, ?_⟩
      simp only
      ring

/-- The snapshot computed from the single-entry transcript of spec §8. -/
theorem parse_entry160k :
    parse_transcript 200000 (some [Line.ok entry160k]) = some snap160k := by
  have hsel : selectEntry [Line.ok entry160k] = some entry160k := by decide
  rw [parse_transcript_some 200000 _ entry160k hsel (by norm_num)]
  simp only [entry160k, emptyUsage, Option.getD_some, Option.some.injEq,
    snap160k, Snapshot.mk.injEq]
  norm_num

/-- C2 witness: the spec §8 end-to-end numbers, 160000 tokens of
200000, percentage exactly 80. -/
theorem C2_snapshot_token_arithmetic_witness :
    ∃ e, selectEntry [Line.ok entry160k] = some e ∧
      snap160k.input_tokens = ((e.message_usage.getD emptyUsage).input_tokens).getD 0 ∧
      snap160k.cache_read_tokens =
        ((e.message_usage.getD emptyUsage).cache_read_input_tokens).getD 0 ∧
      snap160k.cache_creation_tokens =
        ((e.message_usage.getD emptyUsage).cache_creation_input_tokens).getD 0 ∧
      snap160k.total_tokens =
        snap160k.input_tokens + snap160k.cache_read_tokens + snap160k.cache_creation_tokens ∧
      snap160k.percentage = 100 * (snap160k.total_tokens : ℚ) / ((200000 : Nat) : ℚ) :=
  C2_snapshot_token_arithmetic 200000 [Line.ok entry160k] snap160k parse_entry160k

/-- C7: the extractor returns `none` exactly when the transcript file is
missing or unreadable, or contains zero valid entries; it never
fabricates a zero-usage snapshot in those cases. -/
theorem C7_absent_iff_no_valid_entry :
    ∀ max_context_tokens : Nat, max_context_tokens ≠ 0 →
      parse_transcript max_context_tokens none = none ∧
      ∀ lines : List Line,
        (parse_transcript max_context_tokens (some lines) = none ↔
          validEntries lines = []) := by
  intro m hm
  refine ⟨rfl, ?_⟩
  intro lines
  simp only [parse_transcript, selectEntry]
  cases hv : validEntries lines with
  | nil => simp
  | cons a rest => simp [hm]

/-- C7 witness: at the default 200000-token window, a missing file and a
transcript whose only line is malformed both yield `none`. -/
theorem C7_absent_iff_no_valid_entry_witness :
    parse_transcript 200000 none = none ∧
    ∀ lines : List Line,
      (parse_transcript 200000 (some lines) = none ↔ validEntries lines = []) :=
  C7_absent_iff_no_valid_entry 200000 (by decide)

/-- C8: a line that fails JSON decoding, mixed among valid lines, is
skipped without affecting the parse of the remaining lines: the
extractor's result is the same as on the transcript with the malformed
line removed. -/
theorem C8_malformed_line_skipped :
    ∀ (max_context_tokens : Nat) (pre post : List Line),
      parse_transcript max_context_tokens (some (pre ++ Line.malformed :: post)) =
        parse_transcript max_context_tokens (some (pre ++ post)) := by
  intro m pre post
  have hdec : decodeLines (pre ++ Line.malformed :: post) = decodeLines (pre ++ post) := by
    rw [decodeLines_append, decodeLines_append]
    simp [decodeLines]
  have hsel : selectEntry (pre ++ Line.malformed :: post) = selectEntry (pre ++ post) := by
    simp only [selectEntry, validEntries, hdec]
  simp only [parse_transcript, hsel]

/-! ## Helper lemmas on the trigger -/

theorem evaluate_skip_of_marker (cfg : Config) (env : IOEnv) (sid : String)
    (u : Snapshot) (s : FSState) (h : s.markerExists = true) :
    evaluate cfg env sid u s = (s, TriggerResult.Skip) := by
  simp [evaluate, h]

theorem evaluate_skip_of_guard (cfg : Config) (env : IOEnv) (sid : String)
    (u : Snapshot) (s : FSState) (h1 : s.markerExists = false)
    (hg : ¬ u.percentage / 100 ≥ cfg.threshold) :
    evaluate cfg env sid u s = (s, TriggerResult.Skip) := by
  simp [evaluate, h1, hg]

theorem evaluate_fire_of (cfg : Config) (env : IOEnv) (sid : String)
    (u : Snapshot) (s : FSState) (h1 : s.markerExists = false)
    (h2 : env.write_ok = true) (hg : u.percentage / 100 ≥ cfg.threshold) :
    (evaluate cfg env sid u s).2 = TriggerResult.Fire ∧
      (evaluate cfg env sid u s).1.markerExists = true := by
  cases ho : s.outputFile <;> cases hn : cfg.notification_enabled <;>
    simp [evaluate, update_output_file, h1, h2, hg, ho, hn]

/-- The session state after the standard firing: fresh directory,
threshold crossed at exactly 80%, writes succeeding. -/
def stFired80 : FSState :=
  { markerExists := true
    outputFile := some [Chunk.header, Chunk.alert "session" (pctSnapshot 80)]
    notificationsSent := 1
    history := [Event.outputCreate, Event.outputAppend, Event.markerWrite, Event.notifySend] }

theorem evaluate_fire_80 :
    evaluate DEFAULT_CONFIG envOk "session" (pctSnapshot 80) st0 =
      (stFired80, TriggerResult.Fire) := by
  have hg : (4 : ℚ)/5 ≤ (pctSnapshot 80).percentage / 100 := by
    norm_num [pctSnapshot]
  simp [evaluate, update_output_file, st0, envOk, hg, stFired80, DEFAULT_CONFIG]

/-! ## Claims about the trigger and the dispatcher -/

/-- C1: on a session directory with no marker (and writes succeeding),
an evaluation fires and creates the marker if and only if
`percentage / 100 >= threshold`; with the default threshold 0.80,
percentage 79.9 yields Skip (no marker), percentage 80.0 yields Fire
with the marker created, and any subsequent evaluation yields Skip. -/
theorem C1_fire_iff_threshold :
    (∀ (cfg : Config) (env : IOEnv) (sid : String) (u : Snapshot) (s : FSState),
        s.markerExists = false → env.write_ok = true →
        (((evaluate cfg env sid u s).2 = TriggerResult.Fire ∧
            (evaluate cfg env sid u s).1.markerExists = true) ↔
          u.percentage / 100 ≥ cfg.threshold)) ∧
    (evaluate DEFAULT_CONFIG envOk "session" (pctSnapshot (799/10)) st0).2 =
      TriggerResult.Skip ∧
    (evaluate DEFAULT_CONFIG envOk "session" (pctSnapshot (799/10)) st0).1.markerExists =
      false ∧
    (evaluate DEFAULT_CONFIG envOk "session" (pctSnapshot 80) st0).2 =
      TriggerResult.Fire ∧
    (evaluate DEFAULT_CONFIG envOk "session" (pctSnapshot 80) st0).1.markerExists = true ∧
    ∀ p : ℚ,
      (evaluate DEFAULT_CONFIG envOk "session" (pctSnapshot p)
          (evaluate DEFAULT_CONFIG envOk "session" (pctSnapshot 80) st0).1).2 =
        TriggerResult.Skip := by
  have h799 : ¬ (pctSnapshot (799/10)).percentage / 100 ≥ DEFAULT_CONFIG.threshold := by
    norm_num [pctSnapshot, DEFAULT_CONFIG]
  have h80 : (pctSnapshot 80).percentage / 100 ≥ DEFAULT_CONFIG.threshold := by
    norm_num [pctSnapshot, DEFAULT_CONFIG]
  refine ⟨?_, ?_, ?_, ?_, ?_, ?_⟩
  · intro cfg env sid u s h1 h2
    constructor
    · intro hc
      by_contra hg
      rw [evaluate_skip_of_guard cfg env sid u s h1 hg] at hc
      simp at hc
    · intro hg
      exact evaluate_fire_of cfg env sid u s h1 h2 hg
  · rw [evaluate_skip_of_guard _ _ _ _ _ rfl h799]
  · rw [evaluate_skip_of_guard _ _ _ _ _ rfl h799]
    rfl
  · exact (evaluate_fire_of _ _ _ _ _ rfl rfl h80).1
  · exact (evaluate_fire_of _ _ _ _ _ rfl rfl h80).2
  · intro p
    rw [evaluate_skip_of_marker _ _ _ _ _
      (evaluate_fire_of DEFAULT_CONFIG envOk "session" (pctSnapshot 80) st0 rfl rfl h80).2]

/-- C4: the trigger is a strict one-way latch: when the marker file
exists, every evaluation returns Skip and the whole hook run leaves the
session state untouched (no output write, no marker write, no
notification, no recorded side effect) and exits 0, whatever the
snapshot percentage. -/
theorem C4_fired_latch_is_noop :
    ∀ (cfg : Config) (env : IOEnv) (input : HookInput) (sid : String)
      (u : Snapshot) (s : FSState),
      s.markerExists = true →
      evaluate cfg env sid u s = (s, TriggerResult.Skip) ∧
      check_and_notify cfg env input s = (s, 0) := by
  intro cfg env input sid u s h
  refine ⟨by simp [evaluate, h], ?_⟩
  cases ht : input.transcript_path with
  | none => simp [check_and_notify, ht]
  | some t => simp [check_and_notify, ht, h]

/-- A session directory whose marker file already exists. -/
def stMarked : FSState :=
  { markerExists := true
    outputFile := none
    notificationsSent := 0
    history := [] }

/-- The hook input of the standard scenario: a transcript whose only
line is `entry160k`. -/
def inputBasic : HookInput :=
  { session_id := "session"
    transcript_path := some (some [Line.ok entry160k]) }

/-- C4 witness: with the marker present, an evaluation at 10% (below
threshold) and the full hook run are both no-ops. -/
theorem C4_fired_latch_is_noop_witness :
    evaluate DEFAULT_CONFIG envOk "session" (pctSnapshot (1/10)) stMarked =
        (stMarked, TriggerResult.Skip) ∧
      check_and_notify DEFAULT_CONFIG envOk inputBasic stMarked = (stMarked, 0) :=
  C4_fired_latch_is_noop DEFAULT_CONFIG envOk inputBasic "session"
    (pctSnapshot (1/10)) stMarked rfl

/-- C5 counterexample: in the standard firing the recorded side effects
are, in order, output-file creation, output-file append, marker write,
notification — the first side effect of the firing is an output-file
write, not the marker write, so the marker write does not precede the
dispatch side effects. -/
theorem C5_counterexample_append_precedes_marker :
    (evaluate DEFAULT_CONFIG envOk "session" (pctSnapshot 80) st0).2 =
        TriggerResult.Fire ∧
      (evaluate DEFAULT_CONFIG envOk "session" (pctSnapshot 80) st0).1.history =
        [Event.outputCreate, Event.outputAppend, Event.markerWrite, Event.notifySend] ∧
      [Event.outputCreate, Event.outputAppend, Event.markerWrite,
          Event.notifySend].head? ≠ some Event.markerWrite :=
  ⟨by rw [evaluate_fire_80], by rw [evaluate_fire_80]; rfl, by decide⟩

/-- C5 (amended): in every firing evaluation the marker file is created
immediately after the successful output-file append and before the
notification: the firing's side effects are exactly the output-file
write(s), then the marker write, then the notification (when
enabled). -/
theorem C5_amended_marker_after_append_before_notify :
    ∀ (cfg : Config) (env : IOEnv) (sid : String) (u : Snapshot) (s s' : FSState),
      evaluate cfg env sid u s = (s', TriggerResult.Fire) →
      s'.history =
        s.history ++
          (match s.outputFile with
           | none => [Event.outputCreate, Event.outputAppend]
           | some _ => [Event.outputAppend]) ++
          [Event.markerWrite] ++
          (if cfg.notification_enabled then [Event.notifySend] else []) := by
  intro cfg env sid u s s' h
  by_cases h1 : s.markerExists
  · rw [evaluate_skip_of_marker cfg env sid u s h1] at h
    simp at h
  · rw [Bool.not_eq_true] at h1
    by_cases hg : u.percentage / 100 ≥ cfg.threshold
    · by_cases h2 : env.write_ok
      · cases ho : s.outputFile <;> cases hn : cfg.notification_enabled <;>
          · simp [evaluate, update_output_file, h1, h2, hg, ho, hn,
              Prod.ext_iff] at h
            subst h
            simp [ho, hn]
      · rw [Bool.not_eq_true] at h2
        simp [evaluate, update_output_file, h1, h2, hg] at h
    · rw [evaluate_skip_of_guard cfg env sid u s h1 hg] at h
      simp at h

/-- C5 witness: the amended ordering at the standard firing. -/
theorem C5_amended_witness :
    stFired80.history =
      st0.history ++
        (match st0.outputFile with
         | none => [Event.outputCreate, Event.outputAppend]
         | some _ => [Event.outputAppend]) ++
        [Event.markerWrite] ++
        (if DEFAULT_CONFIG.notification_enabled then [Event.notifySend] else []) :=
  C5_amended_marker_after_append_before_notify DEFAULT_CONFIG envOk "session"
    (pctSnapshot 80) st0 stFired80 evaluate_fire_80

/-- C9: the output-file update never truncates or overwrites prior
content: a missing file is created with a header and the alert block,
an existing file gets the alert block appended after its unchanged
content, and two dispatches on an existing file append two blocks in
order after the unchanged prior content. -/
theorem C9_output_file_append_only :
    ∀ (env : IOEnv) (sid1 sid2 : String) (u1 u2 : Snapshot) (s : FSState),
      env.write_ok = true →
      (s.outputFile = none →
        (update_output_file env sid1 u1 s).1.outputFile =
            some [Chunk.header, Chunk.alert sid1 u1] ∧
          (update_output_file env sid1 u1 s).2 = true) ∧
      (∀ c, s.outputFile = some c →
        (update_output_file env sid1 u1 s).1.outputFile =
            some (c ++ [Chunk.alert sid1 u1]) ∧
          (update_output_file env sid1 u1 s).2 = true) ∧
      (∀ c, s.outputFile = some c →
        (update_output_file env sid2 u2 (update_output_file env sid1 u1 s).1).1.outputFile =
          some (c ++ [Chunk.alert sid1 u1, Chunk.alert sid2 u2])) := by
  intro env sid1 sid2 u1 u2 s h
  refine ⟨?_, ?_, ?_⟩
  · intro ho
    simp [update_output_file, h, ho]
  · intro c ho
    simp [update_output_file, h, ho]
  · intro c ho
    simp [update_output_file, h, ho]

/-- A session directory whose output file already holds a header. -/
def stWithOutput : FSState :=
  { markerExists := false
    outputFile := some [Chunk.header]
    notificationsSent := 0
    history := [] }

/-- C9 witness: appending on an existing one-chunk file. -/
theorem C9_output_file_append_only_witness :
    (stWithOutput.outputFile = none →
      (update_output_file envOk "a" snap160k stWithOutput).1.outputFile =
          some [Chunk.header, Chunk.alert "a" snap160k] ∧
        (update_output_file envOk "a" snap160k stWithOutput).2 = true) ∧
    (∀ c, stWithOutput.outputFile = some c →
      (update_output_file envOk "a" snap160k stWithOutput).1.outputFile =
          some (c ++ [Chunk.alert "a" snap160k]) ∧
        (update_output_file envOk "a" snap160k stWithOutput).2 = true) ∧
    (∀ c, stWithOutput.outputFile = some c →
      (update_output_file envOk "b" snap160k
          (update_output_file envOk "a" snap160k stWithOutput).1).1.outputFile =
        some (c ++ [Chunk.alert "a" snap160k, Chunk.alert "b" snap160k])) :=
  C9_output_file_append_only envOk "a" "b" snap160k snap160k stWithOutput rfl

/-- C10: when the threshold is crossed but the output-file write fails,
the marker is not created, the notifier is not called, the session state
is completely unchanged (so a later invocation with working I/O still
fires), and the hook run exits 0. -/
theorem C10_failed_write_leaves_trigger_armed :
    ∀ (cfg : Config) (env : IOEnv) (input : HookInput) (t : Option (List Line))
      (s : FSState) (u : Snapshot),
      env.write_ok = false → s.markerExists = false →
      input.transcript_path = some t →
      parse_transcript cfg.max_context_tokens t = some u →
      u.percentage / 100 ≥ cfg.threshold →
      check_and_notify cfg env input s = (s, 0) ∧
      ∀ env' : IOEnv, env'.write_ok = true →
        (evaluate cfg env' input.session_id u s).2 = TriggerResult.Fire := by
  intro cfg env input t s u he hm ht hp hg
  constructor
  · simp [check_and_notify, ht, hm, hp, evaluate, hg, update_output_file, he]
  · intro env' he'
    exact (evaluate_fire_of cfg env' input.session_id u s hm he' hg).1

/-- C10 witness: the standard 80% scenario with a failing output
write. -/
theorem C10_failed_write_leaves_trigger_armed_witness :
    check_and_notify DEFAULT_CONFIG envFail inputBasic st0 = (st0, 0) ∧
    ∀ env' : IOEnv, env'.write_ok = true →
      (evaluate DEFAULT_CONFIG env' inputBasic.session_id snap160k st0).2 =
        TriggerResult.Fire :=
  C10_failed_write_leaves_trigger_armed DEFAULT_CONFIG envFail inputBasic
    (some [Line.ok entry160k]) st0 snap160k rfl rfl rfl parse_entry160k
    (by norm_num [snap160k, DEFAULT_CONFIG])

/-! ## Claims about configuration loading -/

/-- A user config file setting only `threshold`, to 0.5. -/
def uHalf : UserConfig := { emptyUserConfig with threshold := some (1/2) }

/-- C6 (code bug): configuration loading aborts the monitor whenever
any candidate config file exists.  The loader returns a configuration —
always the defaults — exactly when every candidate path is absent; the
first existing candidate, whether malformed or valid, raises the
`AttributeError` of `_log` reading the not-yet-assigned `self.config`,
and the hook exits 1.  In particular, with a malformed first candidate
followed by a valid file setting `threshold` to 0.5, no configuration
is produced at all (neither threshold 0.5 nor the defaults) and the
entry point exits 1. -/
theorem C6_config_loading_aborts :
    (∀ files : List ConfigFile,
        load_config files = LoadResult.ok DEFAULT_CONFIG ↔
          ∀ f ∈ files, f = ConfigFile.absent) ∧
    (∀ (files : List ConfigFile) (c : Config),
        load_config files = LoadResult.ok c → c = DEFAULT_CONFIG) ∧
    load_config [ConfigFile.malformed, ConfigFile.valid uHalf] =
      LoadResult.attributeError ∧
    init_exit_code [ConfigFile.malformed, ConfigFile.valid uHalf] = some 1 := by
  refine ⟨?_, ?_, by decide, by decide⟩
  · intro files
    induction files with
    | nil => simp [load_config]
    | cons f rest ih =>
      cases f with
      | absent => simpa [load_config] using ih
      | malformed => simp [load_config]
      | valid u => simp [load_config]
  · intro files
    induction files with
    | nil =>
      intro c h
      simp only [load_config, LoadResult.ok.injEq] at h
      exact h.symm
    | cons f rest ih =>
      cases f with
      | absent =>
        intro c h
        simp only [load_config] at h
        exact ih c h
      | malformed =>
        intro c h
        simp [load_config] at h
      | valid u =>
        intro c h
        simp [load_config] at h

end ContextMonitor
